import Mathlib

/-
Verification of the bambu-pgcode server (src/server/server.py).

The program has two parts:
  * a Flask app serving static files from a client directory, with a
    default document at the root route, a catch-all file route, and a
    404 error handler;
  * a printer session object (BambuPGCode) wrapping the bambulabs_api
    SDK: connect_printer / disconnect_printer, sequenced by main.

The filesystem under the static root is modelled as a finite map from
normalised path segments to file bytes.  SDK calls are modelled by an
oracle recording, for each operation, whether it raises.  Python
exceptions are modelled with Except; a try/except block becomes a match
on the Except value of the tried block.
-/

set_option autoImplicit false

namespace BambuPG

/-- Python exception classes relevant to the server. -/
inductive PyExn where
  | notFound
  | fileNotFoundError
  | sdkError
  | otherError
  deriving DecidableEq, Repr

/-- An HTTP response body: raw file bytes, or a text payload. -/
inductive Body where
  | bytes (content : List Nat)
  | text (s : String)
  deriving DecidableEq, Repr

/-- An HTTP response: body plus status code. -/
structure Response where
  body : Body
  status : Nat
  deriving DecidableEq, Repr

/-- The static root (CLIENT_DIR): a finite map from path-segment lists
to file contents (raw bytes). -/
def FS := List (List String × List Nat)

/-- Look a segment list up in the static root. -/
def FS.lookup (fs : FS) (segs : List String) : Option (List Nat) :=
  match fs with
  | [] => none
  | (k, v) :: rest => if k = segs then some v else FS.lookup rest segs

/-- Whether the first character of a string is the given character. -/
def headIs (c : Char) (s : String) : Bool :=
  match s.data with
  | [] => false
  | d :: _ => d == c

/-- The string without its first character (Python slicing path[1:]). -/
def strDrop1 (s : String) : String :=
  String.mk s.data.tail

/-- Split a list of characters at every slash. -/
def splitSegsAux (cs : List Char) (cur : List Char) : List String :=
  match cs with
  | [] => [String.mk cur.reverse]
  | c :: rest =>
    if c == '/' then String.mk cur.reverse :: splitSegsAux rest []
    else splitSegsAux rest (c :: cur)

/-- Split a path string into its slash-separated segments. -/
def splitSegs (s : String) : List String :=
  splitSegsAux s.data []

/-- One step of posixpath.normpath over segments; the accumulator holds
the output segments in reverse order. -/
def normStep (acc : List String) (s : String) : List String :=
  if s = "" ∨ s = "." then acc
  else if s = ".." then
    match acc with
    | [] => [".."]
    | a :: rest => if a = ".." then ".." :: a :: rest else rest
  else s :: acc

/-- posixpath.normpath on a relative path, in segment form: drop empty
and dot segments, cancel dot-dot segments against preceding ones, and
keep only the leading dot-dot segments that cannot cancel. -/
def normSegments (segs : List String) : List String :=
  (segs.foldl normStep []).reverse

/-- werkzeug safe_join for a single filename on posix: reject an
absolute path and a normalised path that still climbs above the
directory; otherwise return the normalised segments. -/
def safe_join (filename : String) : Option (List String) :=
  if headIs '/' filename then none
  else
    match normSegments (splitSegs filename) with
    | [] => some []
    | s :: rest => if s = ".." then none else some (s :: rest)

/-- flask.send_from_directory over the modelled static root: join the
filename safely under the directory, raise NotFound if the join is
rejected or no file is there, otherwise send the file bytes with
status 200. -/
def send_from_directory (fs : FS) (filename : String) : Except PyExn Response :=
  match safe_join filename with
  | none => Except.error PyExn.notFound
  | some segs =>
    match FS.lookup fs segs with
    | none => Except.error PyExn.notFound
    | some content => Except.ok ⟨Body.bytes content, 200⟩

/-- The route for the root path: serve the main index.html file. -/
def serve_index (fs : FS) : Except PyExn Response :=
  send_from_directory fs "index.html"

/-- The catch-all file route, with its try/except FileNotFoundError
converting that exception into a fixed 404 response. -/
def serve_static_files (fs : FS) (filename : String) : Except PyExn Response :=
  match send_from_directory fs filename with
  | Except.error PyExn.fileNotFoundError => Except.ok ⟨Body.text "File not found", 404⟩
  | r => r

/-- The registered 404 error handler. -/
def not_found : Response := ⟨Body.text "File not found", 404⟩

/-- Whether a request path matches the catch-all rule with the path
converter: a leading slash followed by a nonempty remainder whose first
character is not itself a slash. -/
def matchesFileRoute (path : String) : Bool :=
  headIs '/' path && !(strDrop1 path).data.isEmpty && !headIs '/' (strDrop1 path)

/-- Flask request dispatch: match the route, run the view function, and
send NotFound errors (from routing or from the view) through the
registered 404 handler. -/
def app_dispatch (fs : FS) (path : String) : Response :=
  let viewResult : Except PyExn Response :=
    if path = "/" then serve_index fs
    else if matchesFileRoute path then serve_static_files fs (strDrop1 path)
    else Except.error PyExn.notFound
  match viewResult with
  | Except.ok r => r
  | Except.error PyExn.notFound => not_found
  | Except.error _ => ⟨Body.text "Internal Server Error", 500⟩

/-- The file a filename resolves to under the static root, if any:
the safe join must accept it and the file must exist. -/
def resolveUnder (fs : FS) (filename : String) : Option (List Nat) :=
  match safe_join filename with
  | none => none
  | some segs => FS.lookup fs segs

/-- The file a full request path resolves to under the static root, if
any, following the routing: the root path resolves via the default
document, a file-route path via its filename. -/
def resolvedFile (fs : FS) (path : String) : Option (List Nat) :=
  if path = "/" then resolveUnder fs "index.html"
  else if matchesFileRoute path then resolveUnder fs (strDrop1 path)
  else none

/-- A request path whose filename still climbs above the static root
after normalisation. -/
def escapesRoot (path : String) : Bool :=
  matchesFileRoute path &&
    (match normSegments (splitSegs (strDrop1 path)) with
     | [] => false
     | s :: _ => s == "..")

/-- A printer handle as constructed by the SDK (bl.Printer). -/
structure Printer where
  ip : String
  access_code : String
  serial : String
  deriving DecidableEq, Repr

/-- The SDK oracle: for each SDK operation, whether the call raises. -/
structure Sdk where
  constructRaises : Bool
  connectRaises : Bool
  mqttStartRaises : Bool
  mqttStopRaises : Bool
  disconnectRaises : Bool
  deriving DecidableEq, Repr

/-- A call observed at the SDK boundary. -/
inductive SdkCall where
  | construct (ip access_code serial : String)
  | connect (p : Printer)
  | mqttStart (p : Printer)
  | mqttStop (p : Printer)
  | disconnect (p : Printer)
  deriving DecidableEq, Repr

/-- The session object: the printer field starts as None and the three
configuration strings are stored at construction. -/
structure BambuPGCode where
  printer : Option Printer
  running : Bool
  printer_ip : String
  printer_access_code : String
  printer_serial : String
  deriving DecidableEq, Repr

/-- The constructor of BambuPGCode: no handle, running set, the three
settings stored.  define_routes touches no session state. -/
def BambuPGCode.init (ip access_code serial : String) : BambuPGCode :=
  ⟨none, true, ip, access_code, serial⟩

/-- The try block of connect_printer: construct the handle and store it
in the printer field, perform the handshake, start MQTT.  Each SDK call
may raise; the returned state and call trace reflect how far the block
got.  The handle is stored as soon as construction succeeds, before the
handshake. -/
def connect_printer_attempt (sdk : Sdk) (s : BambuPGCode) :
    BambuPGCode × List SdkCall × Except PyExn Bool :=
  let c0 := SdkCall.construct s.printer_ip s.printer_access_code s.printer_serial
  if sdk.constructRaises then (s, [c0], Except.error PyExn.sdkError)
  else
    let p : Printer := ⟨s.printer_ip, s.printer_access_code, s.printer_serial⟩
    let s1 : BambuPGCode := { s with printer := some p }
    if sdk.connectRaises then (s1, [c0, SdkCall.connect p], Except.error PyExn.sdkError)
    else if sdk.mqttStartRaises then
      (s1, [c0, SdkCall.connect p, SdkCall.mqttStart p], Except.error PyExn.sdkError)
    else (s1, [c0, SdkCall.connect p, SdkCall.mqttStart p], Except.ok true)

/-- connect_printer: the try block above wrapped in except Exception,
which logs the failure and returns False. -/
def connect_printer (sdk : Sdk) (s : BambuPGCode) :
    BambuPGCode × List SdkCall × Except PyExn Bool :=
  match connect_printer_attempt sdk s with
  | (s1, calls, Except.error _) => (s1, calls, Except.ok false)
  | (s1, calls, Except.ok b) => (s1, calls, Except.ok b)

/-- The try block of disconnect_printer on a held handle: stop MQTT
first, then close the handle; either call may raise. -/
def disconnect_attempt (sdk : Sdk) (p : Printer) : List SdkCall × Except PyExn Unit :=
  if sdk.mqttStopRaises then ([SdkCall.mqttStop p], Except.error PyExn.sdkError)
  else if sdk.disconnectRaises then
    ([SdkCall.mqttStop p, SdkCall.disconnect p], Except.error PyExn.sdkError)
  else ([SdkCall.mqttStop p, SdkCall.disconnect p], Except.ok ())

/-- disconnect_printer: a no-op when no handle is held; otherwise run
the try block and swallow any exception (logging only).  The printer
field is never written. -/
def disconnect_printer (sdk : Sdk) (s : BambuPGCode) :
    BambuPGCode × List SdkCall × Except PyExn Unit :=
  match s.printer with
  | none => (s, [], Except.ok ())
  | some p =>
    match disconnect_attempt sdk p with
    | (calls, _) => (s, calls, Except.ok ())

/-- Python truthiness of an optional environment string: os.getenv
yields None when the variable is absent, and the empty string is also
falsy. -/
def falsyEnv (o : Option String) : Bool :=
  match o with
  | none => true
  | some s => s.data.isEmpty

instance exceptDecEq {ε α : Type} [DecidableEq ε] [DecidableEq α] :
    DecidableEq (Except ε α) := fun a b =>
  match a, b with
  | Except.ok x, Except.ok y =>
    if h : x = y then isTrue (by rw [h]) else isFalse (by simp [h])
  | Except.error x, Except.error y =>
    if h : x = y then isTrue (by rw [h]) else isFalse (by simp [h])
  | Except.ok _, Except.error _ => isFalse (by simp)
  | Except.error _, Except.ok _ => isFalse (by simp)

/-- The observable outcome of running main: the final session object if
one was constructed, the full SDK call trace, whether app.run was
reached, whether the finally-block disconnect ran, and how main itself
terminated. -/
structure MainResult where
  session : Option BambuPGCode
  calls : List SdkCall
  listenerStarted : Bool
  disconnectAttempted : Bool
  exit : Except PyExn Unit
  deriving DecidableEq, Repr

/-- main: read the three printer environment variables, abort when any
is missing, construct the session object, connect, and only on success
run the listener inside try/finally with disconnect_printer in the
finally block.  The listener argument is how app.run terminates; its
exception, if any, propagates out of main after the finally block. -/
def main (printer_ip printer_access_code printer_serial : Option String)
    (sdk : Sdk) (listener : Except PyExn Unit) : MainResult :=
  if falsyEnv printer_ip || falsyEnv printer_access_code || falsyEnv printer_serial then
    { session := none, calls := [], listenerStarted := false,
      disconnectAttempted := false, exit := Except.ok () }
  else
    match connect_printer sdk (BambuPGCode.init (printer_ip.getD "")
        (printer_access_code.getD "") (printer_serial.getD "")) with
    | (s1, cCalls, Except.ok true) =>
      match disconnect_printer sdk s1 with
      | (s2, dCalls, _) =>
        { session := some s2, calls := cCalls ++ dCalls, listenerStarted := true,
          disconnectAttempted := true, exit := listener }
    | (s1, cCalls, Except.ok false) =>
      { session := some s1, calls := cCalls, listenerStarted := false,
        disconnectAttempted := false, exit := Except.ok () }
    | (s1, cCalls, Except.error e) =>
      { session := some s1, calls := cCalls, listenerStarted := false,
        disconnectAttempted := false, exit := Except.error e }

/-- A request handled by the Flask app: the route closures use only the
static root and the request path; the session object is neither read
nor written by any of them. -/
def handle_request (s : BambuPGCode) (fs : FS) (path : String) :
    BambuPGCode × Response :=
  (s, app_dispatch fs path)

/-! Helper lemmas shared by the claim theorems. -/

theorem send_from_directory_eq (fs : FS) (f : String) :
    send_from_directory fs f =
      match resolveUnder fs f with
      | none => Except.error PyExn.notFound
      | some c => Except.ok ⟨Body.bytes c, 200⟩ := by
  unfold send_from_directory resolveUnder
  cases safe_join f with
  | none => rfl
  | some segs => cases FS.lookup fs segs <;> rfl

theorem serve_static_files_eq (fs : FS) (f : String) :
    serve_static_files fs f =
      match resolveUnder fs f with
      | none => Except.error PyExn.notFound
      | some c => Except.ok ⟨Body.bytes c, 200⟩ := by
  unfold serve_static_files
  rw [send_from_directory_eq]
  cases resolveUnder fs f <;> rfl

theorem resolveUnder_index (fs : FS) :
    resolveUnder fs "index.html" = FS.lookup fs ["index.html"] := by
  unfold resolveUnder
  rw [show safe_join "index.html" = some ["index.html"] from by decide]

theorem resolveUnder_some {fs : FS} {f : String} {c : List Nat}
    (h : resolveUnder fs f = some c) : ∃ segs, FS.lookup fs segs = some c := by
  unfold resolveUnder at h
  cases hsj : safe_join f with
  | none => rw [hsj] at h; exact absurd h (by simp)
  | some segs => rw [hsj] at h; exact ⟨segs, h⟩

theorem matchesFileRoute_ne_root {path : String}
    (h : matchesFileRoute path = true) : ¬ path = "/" := by
  intro heq
  rw [heq] at h
  exact absurd h (by decide)

theorem app_dispatch_eq (fs : FS) (path : String) :
    app_dispatch fs path =
      match resolvedFile fs path with
      | none => not_found
      | some c => ⟨Body.bytes c, 200⟩ := by
  unfold app_dispatch resolvedFile
  by_cases h1 : path = "/"
  · simp only [h1, if_pos rfl]
    unfold serve_index
    rw [send_from_directory_eq]
    cases resolveUnder fs "index.html" <;> rfl
  · simp only [if_neg h1]
    by_cases h2 : matchesFileRoute path = true
    · simp only [h2, if_pos rfl]
      rw [serve_static_files_eq]
      cases resolveUnder fs (strDrop1 path) <;> rfl
    · simp only [h2]
      rfl

theorem connect_result_eq (sdk : Sdk) (s : BambuPGCode) :
    (connect_printer sdk s).2.2 =
      Except.ok (!sdk.constructRaises && !sdk.connectRaises && !sdk.mqttStartRaises) := by
  rcases sdk with ⟨c1, c2, c3, c4, c5⟩
  cases c1 <;> cases c2 <;> cases c3 <;> rfl

theorem connect_printer_printer (sdk : Sdk) (s : BambuPGCode) :
    (connect_printer sdk s).1.printer =
      (if sdk.constructRaises then s.printer
       else some ⟨s.printer_ip, s.printer_access_code, s.printer_serial⟩) := by
  rcases sdk with ⟨c1, c2, c3, c4, c5⟩
  cases c1 <;> cases c2 <;> cases c3 <;> rfl

theorem disconnect_printer_none {sdk : Sdk} {s : BambuPGCode}
    (h : s.printer = none) : disconnect_printer sdk s = (s, [], Except.ok ()) := by
  unfold disconnect_printer
  rw [h]

theorem disconnect_printer_some {sdk : Sdk} {s : BambuPGCode} {p : Printer}
    (h : s.printer = some p) :
    disconnect_printer sdk s =
      (s, (if sdk.mqttStopRaises then [SdkCall.mqttStop p]
           else [SdkCall.mqttStop p, SdkCall.disconnect p]), Except.ok ()) := by
  unfold disconnect_printer disconnect_attempt
  rw [h]
  rcases sdk with ⟨c1, c2, c3, c4, c5⟩
  cases c4 <;> cases c5 <;> rfl

theorem disconnect_printer_state (sdk : Sdk) (s : BambuPGCode) :
    (disconnect_printer sdk s).1 = s ∧ (disconnect_printer sdk s).2.2 = Except.ok () := by
  cases h : s.printer with
  | none => rw [disconnect_printer_none h]; exact ⟨rfl, rfl⟩
  | some p => rw [disconnect_printer_some h]; exact ⟨rfl, rfl⟩

theorem main_disc_eq_listener (ip ac sn : Option String) (sdk : Sdk)
    (listener : Except PyExn Unit) :
    (main ip ac sn sdk listener).disconnectAttempted =
      (main ip ac sn sdk listener).listenerStarted := by
  unfold main
  split
  · rfl
  · split <;> (try split) <;> rfl

theorem main_no_listener_of_failure (ip ac sn : Option String) (sdk : Sdk)
    (listener : Except PyExn Unit)
    (hexn : sdk.constructRaises = true ∨ sdk.connectRaises = true ∨
      sdk.mqttStartRaises = true) :
    (main ip ac sn sdk listener).listenerStarted = false := by
  unfold main
  split
  · rfl
  · rcases hc : connect_printer sdk (BambuPGCode.init (ip.getD "")
        (ac.getD "") (sn.getD "")) with ⟨s1, calls, r⟩
    have hr := connect_result_eq sdk (BambuPGCode.init (ip.getD "")
        (ac.getD "") (sn.getD ""))
    rw [hc] at hr
    have hfalse : (!sdk.constructRaises && !sdk.connectRaises &&
        !sdk.mqttStartRaises) = false := by
      rcases hexn with h | h | h <;> simp [h]
    rw [hfalse] at hr
    have hr2 : r = Except.ok false := hr
    subst hr2
    rfl

/-! The claims. -/

/-- Claim C1, counterexample: with handle construction succeeding and the
handshake raising (an exception during step 2), connect fails and the
listener is not started, but the session does hold a device handle, so
the state is not handle-free as the claim asserts. -/
theorem C1_counterexample :
    (main (some "192.168.1.2") (some "code") (some "serial")
        ⟨false, true, false, false, false⟩ (Except.ok ())).listenerStarted = false ∧
    ((main (some "192.168.1.2") (some "code") (some "serial")
        ⟨false, true, false, false, false⟩ (Except.ok ())).session.bind
      BambuPGCode.printer) = some ⟨"192.168.1.2", "code", "serial"⟩ := by
  decide

/-- Claim C1 (amended): if any exception is raised during steps 1-3 of
connect, connect_printer logs the failure and returns False and main
does not start the HTTP listener; the session holds no device handle
exactly when the failure happened at handle construction, while a
failure at the handshake or at telemetry start leaves the constructed
handle stored in the session. -/
theorem C1_connect_failure_aborts (sdk : Sdk) (s : BambuPGCode)
    (hexn : sdk.constructRaises = true ∨ sdk.connectRaises = true ∨
      sdk.mqttStartRaises = true) :
    (connect_printer sdk s).2.2 = Except.ok false ∧
    (connect_printer sdk s).1.printer =
      (if sdk.constructRaises then s.printer
       else some ⟨s.printer_ip, s.printer_access_code, s.printer_serial⟩) ∧
    ∀ ip ac sn listener, (main ip ac sn sdk listener).listenerStarted = false := by
  refine ⟨?_, connect_printer_printer sdk s, ?_⟩
  · rw [connect_result_eq]
    have hfalse : (!sdk.constructRaises && !sdk.connectRaises &&
        !sdk.mqttStartRaises) = false := by
      rcases hexn with h | h | h <;> simp [h]
    rw [hfalse]
  · intro ip ac sn listener
    exact main_no_listener_of_failure ip ac sn sdk listener hexn

/-- Claim C1, witness for the amended theorem. -/
theorem C1_witness :
    ((⟨false, true, false, false, false⟩ : Sdk).constructRaises = true ∨
      (⟨false, true, false, false, false⟩ : Sdk).connectRaises = true ∨
      (⟨false, true, false, false, false⟩ : Sdk).mqttStartRaises = true) ∧
    (connect_printer ⟨false, true, false, false, false⟩
      (BambuPGCode.init "i" "a" "s")).2.2 = Except.ok false :=
  ⟨Or.inr (Or.inl rfl),
    (C1_connect_failure_aborts ⟨false, true, false, false, false⟩
      (BambuPGCode.init "i" "a" "s") (Or.inr (Or.inl rfl))).1⟩

/-- Claim C2: disconnect_printer never raises, whatever the prior
history (its result is always a normal return), it leaves the session
unchanged, and a second call in succession also returns normally. -/
theorem C2_disconnect_never_raises (sdk : Sdk) (s : BambuPGCode) :
    (disconnect_printer sdk s).2.2 = Except.ok () ∧
    (disconnect_printer sdk s).1 = s ∧
    (disconnect_printer sdk (disconnect_printer sdk s).1).2.2 = Except.ok () :=
  ⟨(disconnect_printer_state sdk s).2, (disconnect_printer_state sdk s).1,
    (disconnect_printer_state sdk (disconnect_printer sdk s).1).2⟩

/-- Claim C3: every request path that does not resolve to a file under
the static root, whether the route is absent or the file is absent,
gets the body File not found with status 404. -/
theorem C3_unresolved_404 (fs : FS) (path : String)
    (h : resolvedFile fs path = none) :
    app_dispatch fs path = ⟨Body.text "File not found", 404⟩ := by
  rw [app_dispatch_eq, h]
  rfl

/-- Claim C3, witness: a missing file under an empty static root. -/
theorem C3_witness :
    resolvedFile [] "/missing.txt" = none ∧
    app_dispatch [] "/missing.txt" = ⟨Body.text "File not found", 404⟩ :=
  ⟨by decide, C3_unresolved_404 [] "/missing.txt" (by decide)⟩

/-- Claim C4: every request path that resolves to an existing file
under the static root is answered with exactly that file content and
status 200; in particular the root path with an existing index.html is
answered with the bytes of index.html and status 200. -/
theorem C4_resolved_200 (fs : FS) (path : String) (c : List Nat)
    (h : resolvedFile fs path = some c) :
    app_dispatch fs path = ⟨Body.bytes c, 200⟩ ∧
    ∀ fs2 d, FS.lookup fs2 ["index.html"] = some d →
      app_dispatch fs2 "/" = ⟨Body.bytes d, 200⟩ := by
  constructor
  · rw [app_dispatch_eq, h]
  · intro fs2 d hd
    have hres : resolvedFile fs2 "/" = some d := by
      unfold resolvedFile
      rw [if_pos rfl, resolveUnder_index]
      exact hd
    rw [app_dispatch_eq, hres]

/-- Claim C4, witness: a static root holding index.html with two
bytes, requested at the root path. -/
theorem C4_witness :
    resolvedFile [(["index.html"], [104, 105])] "/" = some [104, 105] ∧
    app_dispatch [(["index.html"], [104, 105])] "/" = ⟨Body.bytes [104, 105], 200⟩ :=
  ⟨by decide, (C4_resolved_200 [(["index.html"], [104, 105])] "/" [104, 105]
    (by decide)).1⟩

/-- Claim C5: when any of the three printer environment variables is
absent, main logs the error and returns at once: no session object, an
empty SDK call trace (so no handle construction, no connect, no
telemetry call), and the listener never starts. -/
theorem C5_missing_env_aborts (ip ac sn : Option String) (sdk : Sdk)
    (listener : Except PyExn Unit) (h : ip = none ∨ ac = none ∨ sn = none) :
    main ip ac sn sdk listener =
      { session := none, calls := [], listenerStarted := false,
        disconnectAttempted := false, exit := Except.ok () } := by
  unfold main
  rcases h with h | h | h <;> subst h <;> simp [falsyEnv]

/-- Claim C5, witness: the printer address variable absent. -/
theorem C5_witness :
    main none (some "ac") (some "sn") ⟨false, false, false, false, false⟩
        (Except.ok ()) =
      { session := none, calls := [], listenerStarted := false,
        disconnectAttempted := false, exit := Except.ok () } :=
  C5_missing_env_aborts none (some "ac") (some "sn")
    ⟨false, false, false, false, false⟩ (Except.ok ()) (Or.inl rfl)

/-- Claim C6: whenever main starts the HTTP listener, the disconnect in
the finally block is attempted after the listener terminates, for a
normal return and for an exception alike; and on a held handle the
disconnect stops the telemetry subchannel first and closes the handle
second. -/
theorem C6_disconnect_after_listener (ip ac sn : Option String) (sdk : Sdk)
    (listener : Except PyExn Unit)
    (h : (main ip ac sn sdk listener).listenerStarted = true) :
    (main ip ac sn sdk listener).disconnectAttempted = true ∧
    ∀ s p, s.printer = some p →
      (disconnect_printer sdk s).2.1 =
        (if sdk.mqttStopRaises then [SdkCall.mqttStop p]
         else [SdkCall.mqttStop p, SdkCall.disconnect p]) := by
  constructor
  · rw [main_disc_eq_listener]
    exact h
  · intro s p hp
    rw [disconnect_printer_some hp]

/-- Claim C6, witness: a successful run whose listener terminates with
an exception; the disconnect is still attempted. -/
theorem C6_witness :
    (main (some "i") (some "a") (some "s") ⟨false, false, false, false, false⟩
        (Except.error PyExn.otherError)).listenerStarted = true ∧
    (main (some "i") (some "a") (some "s") ⟨false, false, false, false, false⟩
        (Except.error PyExn.otherError)).disconnectAttempted = true :=
  ⟨by decide, (C6_disconnect_after_listener (some "i") (some "a") (some "s")
    ⟨false, false, false, false, false⟩ (Except.error PyExn.otherError)
    (by decide)).1⟩

/-- Claim C7: a request path whose filename would escape the static
root is never served and yields the 404 rejection; and every 200
response with file bytes comes from a file stored under the static
root. -/
theorem C7_containment (fs : FS) (path : String) :
    (escapesRoot path = true →
      app_dispatch fs path = ⟨Body.text "File not found", 404⟩) ∧
    ∀ c, app_dispatch fs path = ⟨Body.bytes c, 200⟩ →
      ∃ segs, FS.lookup fs segs = some c := by
  constructor
  · intro h
    unfold escapesRoot at h
    rw [Bool.and_eq_true] at h
    obtain ⟨hroute, hesc⟩ := h
    have hnr : ¬ path = "/" := matchesFileRoute_ne_root hroute
    have hslash : headIs '/' (strDrop1 path) = false := by
      unfold matchesFileRoute at hroute
      rw [Bool.and_eq_true, Bool.and_eq_true] at hroute
      have h3 := hroute.2
      simp at h3
      exact h3
    have hres : resolvedFile fs path = none := by
      unfold resolvedFile
      rw [if_neg hnr, if_pos hroute]
      unfold resolveUnder safe_join
      cases hn : normSegments (splitSegs (strDrop1 path)) with
      | nil => rw [hn] at hesc; exact absurd hesc (by simp)
      | cons shead rest =>
        rw [hn] at hesc
        have hdd : shead = ".." := by simpa using hesc
        subst hdd
        simp [hslash, hn]
    rw [app_dispatch_eq, hres]
    rfl
  · intro c h200
    rw [app_dispatch_eq] at h200
    cases hr : resolvedFile fs path with
    | none =>
      rw [hr] at h200
      exact absurd h200 (by simp [not_found])
    | some c2 =>
      rw [hr] at h200
      have hc : c2 = c := by
        have hb := congrArg Response.body h200
        simpa using hb
      subst hc
      unfold resolvedFile at hr
      by_cases h1 : path = "/"
      · rw [if_pos h1] at hr
        exact resolveUnder_some hr
      · rw [if_neg h1] at hr
        by_cases h2 : matchesFileRoute path = true
        · rw [if_pos h2] at hr
          exact resolveUnder_some hr
        · rw [if_neg h2] at hr
          exact absurd hr (by simp)

/-- Claim C7, witness: the parent-directory probe path. -/
theorem C7_witness :
    escapesRoot "/../secret" = true ∧
    app_dispatch [(["secret"], [1, 2, 3])] "/../secret" =
      ⟨Body.text "File not found", 404⟩ :=
  ⟨by decide, (C7_containment [(["secret"], [1, 2, 3])] "/../secret").1 (by decide)⟩

/-- Claim C8: handling a static-file request neither reads nor writes
the device session: the session object after the request is the one
before it, and the response does not depend on the session object. -/
theorem C8_request_frame (s s2 : BambuPGCode) (fs : FS) (path : String) :
    (handle_request s fs path).1 = s ∧
    (handle_request s fs path).2 = (handle_request s2 fs path).2 :=
  ⟨rfl, rfl⟩

/-- Claim C9: connect_printer is total at its interface: for every
behaviour of the SDK it returns normally with a boolean, and the
boolean is true exactly when handle construction, handshake and
telemetry start all completed without an exception. -/
theorem C9_connect_total (sdk : Sdk) (s : BambuPGCode) :
    (connect_printer sdk s).2.2 =
      Except.ok (!sdk.constructRaises && !sdk.connectRaises &&
        !sdk.mqttStartRaises) :=
  connect_result_eq sdk s

/-- Claim C10, counterexample: after a connect that reached the
telemetry stage, a subsequent disconnect_printer call whose stop call
raises does not invoke close on the handle, so disconnect does not
always re-invoke both stop-telemetry and close. -/
theorem C10_counterexample :
    ((connect_printer ⟨false, false, false, true, false⟩
        (BambuPGCode.init "i" "a" "s")).1.printer = some ⟨"i", "a", "s"⟩) ∧
    ¬ SdkCall.disconnect ⟨"i", "a", "s"⟩ ∈
        (disconnect_printer ⟨false, false, false, true, false⟩
          (connect_printer ⟨false, false, false, true, false⟩
            (BambuPGCode.init "i" "a" "s")).1).2.1 := by
  decide

/-- Claim C10 (amended): disconnect_printer never clears the stored
handle: once set by a connect whose construction step succeeded (even
one failing later at handshake or telemetry start) it stays set, and
every subsequent disconnect_printer call re-invokes stop-telemetry on
that same handle, and close as well whenever the stop call does not
raise. -/
theorem C10_handle_persists (sdk sdk2 : Sdk) (s : BambuPGCode)
    (h : sdk.constructRaises = false) :
    (connect_printer sdk s).1.printer =
      some ⟨s.printer_ip, s.printer_access_code, s.printer_serial⟩ ∧
    ∀ s1 p, s1.printer = some p →
      (disconnect_printer sdk2 s1).1.printer = some p ∧
      (disconnect_printer sdk2 s1).2.1 =
        (if sdk2.mqttStopRaises then [SdkCall.mqttStop p]
         else [SdkCall.mqttStop p, SdkCall.disconnect p]) := by
  constructor
  · rw [connect_printer_printer, h]
    rfl
  · intro s1 p hp
    rw [disconnect_printer_some hp]
    exact ⟨hp, rfl⟩

/-- Claim C10, witness: a connect failing at the handshake still leaves
the handle stored. -/
theorem C10_witness :
    (connect_printer ⟨false, true, false, false, false⟩
        (BambuPGCode.init "i" "a" "s")).1.printer = some ⟨"i", "a", "s"⟩ :=
  (C10_handle_persists ⟨false, true, false, false, false⟩
    ⟨false, false, false, false, false⟩ (BambuPGCode.init "i" "a" "s") rfl).1

end BambuPG
